import Mathlib

/-!
Verification of the Cosa event core (`src/Cosa/Event.hh`): the `Event`
record (type, target handler, 16-bit value), its accessors, `dispatch`,
the static `push` factories, and the bounded process-wide event queue.

Machine integers are modelled as `Nat`/`Int` with explicit reductions
modulo `2^8` and `2^16` where the C++ code performs integral
conversions.  Pointers (`Handler*`, `void*`) are modelled as `Nat`
addresses, with `0` the null pointer, matching the `m_target != 0`
test in the source.  Member functions are embedded in state-passing
style: each takes the receiver and returns its result paired with the
receiver after the call, so that absence of mutation is a provable
fact rather than an assumption.
-/

namespace Cosa

/-- C++ conversion of an integer to `int8_t` (two's-complement wrap
into `[-128, 127]`), as performed by gcc/avr for the `int8_t type`
parameter of the `Event` constructor. -/
def toInt8 (n : Int) : Int :=
  if n % 256 < 128 then n % 256 else n % 256 - 256

/-- C++ conversion of an integer to `uint8_t` (reduction modulo `2^8`),
as performed when the `int8_t` constructor argument is stored into the
`uint8_t m_type` field. -/
def toUInt8 (n : Int) : Nat :=
  (n % 256).toNat

/-- C++ conversion of an integer to `uint16_t` (reduction modulo
`2^16`), the conversion applied to arguments of `uint16_t` parameters
and by the `(uint16_t) env` cast in the pointer overload of `push`. -/
def toUInt16 (n : Nat) : Nat :=
  n % 65536

/-- The `Event` record of `Cosa/Event.hh`: fields `uint8_t m_type`,
`Handler* m_target`, `uint16_t m_value`. -/
structure Event where
  m_type : Nat
  m_target : Nat
  m_value : Nat
deriving Repr, DecidableEq

/-- Size of the event queue: `static const uint8_t QUEUE_MAX = 16`. -/
def Event.QUEUE_MAX : Nat := 16

/-- Enum constant `NULL_TYPE = 0`. -/
def Event.NULL_TYPE : Nat := 0

/-- Enum constant `FALLING_TYPE` (digital pins). -/
def Event.FALLING_TYPE : Nat := 1

/-- Enum constant `RISING_TYPE`. -/
def Event.RISING_TYPE : Nat := 2

/-- Enum constant `CHANGE_TYPE`. -/
def Event.CHANGE_TYPE : Nat := 3

/-- Enum constant `SAMPLE_REQUEST_TYPE` (analog pins). -/
def Event.SAMPLE_REQUEST_TYPE : Nat := 4

/-- Enum constant `SAMPLE_COMPLETED_TYPE`. -/
def Event.SAMPLE_COMPLETED_TYPE : Nat := 5

/-- Enum constant `WATCHDOG_TYPE` (watchdog and timers). -/
def Event.WATCHDOG_TYPE : Nat := 6

/-- Enum constant `TIMEOUT_TYPE`. -/
def Event.TIMEOUT_TYPE : Nat := 7

/-- Enum constant `BEGIN_TYPE` (finite state machines). -/
def Event.BEGIN_TYPE : Nat := 8

/-- Enum constant `END_TYPE`. -/
def Event.END_TYPE : Nat := 9

/-- Enum constant `RUN_TYPE` (thread). -/
def Event.RUN_TYPE : Nat := 10

/-- Enum constant `CONNECT_TYPE` (device drivers and protocol stacks). -/
def Event.CONNECT_TYPE : Nat := 11

/-- Enum constant `DISCONNECT_TYPE`. -/
def Event.DISCONNECT_TYPE : Nat := 12

/-- Enum constant `RECEIVE_REQUEST_TYPE`. -/
def Event.RECEIVE_REQUEST_TYPE : Nat := 13

/-- Enum constant `RECEIVE_COMPLETED_TYPE`. -/
def Event.RECEIVE_COMPLETED_TYPE : Nat := 14

/-- Enum constant `SEND_REQUEST_TYPE`. -/
def Event.SEND_REQUEST_TYPE : Nat := 15

/-- Enum constant `SEND_COMPLETED_TYPE`. -/
def Event.SEND_COMPLETED_TYPE : Nat := 16

/-- Enum constant `OPEN_TYPE` (device drivers and storage). -/
def Event.OPEN_TYPE : Nat := 17

/-- Enum constant `CLOSE_TYPE`. -/
def Event.CLOSE_TYPE : Nat := 18

/-- Enum constant `READ_REQUEST_TYPE`. -/
def Event.READ_REQUEST_TYPE : Nat := 19

/-- Enum constant `READ_COMPLETED_TYPE`. -/
def Event.READ_COMPLETED_TYPE : Nat := 20

/-- Enum constant `WRITE_REQUEST_TYPE`. -/
def Event.WRITE_REQUEST_TYPE : Nat := 21

/-- Enum constant `WRITE_COMPLETED_TYPE`. -/
def Event.WRITE_COMPLETED_TYPE : Nat := 22

/-- Enum constant `COMMAND_REQUEST_TYPE`. -/
def Event.COMMAND_REQUEST_TYPE : Nat := 23

/-- Enum constant `COMMAND_COMPLETED_TYPE`. -/
def Event.COMMAND_COMPLETED_TYPE : Nat := 24

/-- Enum constant `SERVICE_REQUEST_TYPE` (servers). -/
def Event.SERVICE_REQUEST_TYPE : Nat := 25

/-- Enum constant `SERVICE_RESPONSE_TYPE`. -/
def Event.SERVICE_RESPONSE_TYPE : Nat := 26

/-- Enum constant `USER_TYPE = 64` (user defined events, 64-254). -/
def Event.USER_TYPE : Nat := 64

/-- Enum constant `ERROR_TYPE = 255` (error event). -/
def Event.ERROR_TYPE : Nat := 255

/-- The framework-reserved event types: every enum member strictly
between `NULL_TYPE` and `USER_TYPE` in the source enum, from the pin
edge types through `SERVICE_RESPONSE_TYPE`. -/
def Event.frameworkTypes : List Nat :=
  [Event.FALLING_TYPE, Event.RISING_TYPE, Event.CHANGE_TYPE,
   Event.SAMPLE_REQUEST_TYPE, Event.SAMPLE_COMPLETED_TYPE,
   Event.WATCHDOG_TYPE, Event.TIMEOUT_TYPE,
   Event.BEGIN_TYPE, Event.END_TYPE,
   Event.RUN_TYPE,
   Event.CONNECT_TYPE, Event.DISCONNECT_TYPE,
   Event.RECEIVE_REQUEST_TYPE, Event.RECEIVE_COMPLETED_TYPE,
   Event.SEND_REQUEST_TYPE, Event.SEND_COMPLETED_TYPE,
   Event.OPEN_TYPE, Event.CLOSE_TYPE,
   Event.READ_REQUEST_TYPE, Event.READ_COMPLETED_TYPE,
   Event.WRITE_REQUEST_TYPE, Event.WRITE_COMPLETED_TYPE,
   Event.COMMAND_REQUEST_TYPE, Event.COMMAND_COMPLETED_TYPE,
   Event.SERVICE_REQUEST_TYPE, Event.SERVICE_RESPONSE_TYPE]

/-- The `Event` constructor
`Event(int8_t type = NULL_TYPE, Handler* target = 0, uint16_t value = 0)`.
The argument of the `int8_t type` parameter is wrapped to `int8_t` at
the call, then stored into the `uint8_t m_type` field; the argument of
the `uint16_t value` parameter is reduced modulo `2^16`. -/
def Event.make (type : Int) (target : Nat) (value : Nat) : Event :=
  { m_type := toUInt8 (toInt8 type),
    m_target := target,
    m_value := toUInt16 value }

/-- The default-constructed `Event()`: all three constructor defaults
(`NULL_TYPE`, null target, `0`) in force. -/
def Event.defaultEvent : Event :=
  Event.make (Event.NULL_TYPE : Int) 0 0

/-- Accessor `int get_type()`: `return (m_type);` — the `uint8_t`
field converted (value-preservingly) to `int`.  State-passing: the
second component is the receiver after the call. -/
def Event.get_type (e : Event) : Int × Event :=
  ((e.m_type : Int), e)

/-- Accessor `Handler* get_target()`: `return (m_target);`. -/
def Event.get_target (e : Event) : Nat × Event :=
  (e.m_target, e)

/-- Accessor `uint16_t get_value()`: `return (m_value);`. -/
def Event.get_value (e : Event) : Nat × Event :=
  (e.m_value, e)

/-- Accessor `void* get_env()`: `return ((void*) m_value);` — the
16-bit value field reinterpreted as a pointer, value-preserving on the
16-bit-pointer target hardware, with no runtime check. -/
def Event.get_env (e : Event) : Nat × Event :=
  (e.m_value, e)

/-- One invocation of `Handler::on_event(uint8_t type, uint16_t value)`
on a target handler, recorded as an observable call. -/
structure Call where
  target : Nat
  type : Nat
  value : Nat
deriving Repr, DecidableEq

/-- Member function `void dispatch()`:
`if (m_target != 0) m_target->on_event(m_type, m_value);`.
Its observable effect is the list of `on_event` invocations it
performs; the second component is the receiver after the call. -/
def Event.dispatch (e : Event) : List Call × Event :=
  (if e.m_target ≠ 0 then [⟨e.m_target, e.m_type, e.m_value⟩] else [], e)

/-- Modelled from the spec: the `Queue` class of `Cosa/Queue.hh` is not
under `src/` (only its use in `Event::push` and the static member
declaration `static Queue queue` are).  Per the spec it is a single
bounded FIFO buffer of Event records with a statically fixed capacity:
enqueue copies the event into the next free slot when not full and
reports success, fails without effect when full; dequeue removes the
oldest event when non-empty, fails without effect when empty. -/
structure Queue where
  cap : Nat
  buf : List Event
deriving Repr, DecidableEq

/-- Modelled from the spec: `Queue::enqueue` — copies the given Event
into the next free slot if the queue is not full and returns success,
otherwise fails without blocking and without corrupting entries. -/
def Queue.enqueue (q : Queue) (e : Event) : Bool × Queue :=
  if q.buf.length < q.cap then (true, ⟨q.cap, q.buf ++ [e]⟩)
  else (false, q)

/-- Modelled from the spec: `Queue::dequeue` — if non-empty, removes
and returns the oldest buffered Event; otherwise fails and leaves the
queue unchanged. -/
def Queue.dequeue (q : Queue) : Option Event × Queue :=
  match q.buf with
  | [] => (none, q)
  | e :: rest => (some e, ⟨q.cap, rest⟩)

/-- The process-wide static member `Queue Event::queue`, of capacity
`QUEUE_MAX`, initially empty. -/
def Event.queue : Queue :=
  ⟨Event.QUEUE_MAX, []⟩

/-- The local `Event event(type, target, value)` constructed inside
`Event::push(uint8_t type, Handler* target, uint16_t value)`: the
`uint8_t`/`uint16_t` parameters reduce their arguments modulo `2^8`
and `2^16`, and the `uint8_t` type is then narrowed to the `int8_t`
constructor parameter. -/
def Event.pushedEvent (type : Nat) (target : Nat) (value : Nat) : Event :=
  Event.make ((type % 256 : Nat) : Int) target (toUInt16 value)

/-- Static member
`bool push(uint8_t type, Handler* target, uint16_t value = 0)`:
constructs `Event event(type, target, value)` and returns
`queue.enqueue(&event)`.  The queue is passed and returned
explicitly. -/
def Event.push (type : Nat) (target : Nat) (value : Nat) (q : Queue) :
    Bool × Queue :=
  q.enqueue (Event.pushedEvent type target value)

/-- Static member
`bool push(uint8_t type, Handler* target, void* env)`:
`return (push(type, target, (uint16_t) env));` — the environment
pointer is cast to `uint16_t` and delegated to the scalar overload. -/
def Event.pushEnv (type : Nat) (target : Nat) (env : Nat) (q : Queue) :
    Bool × Queue :=
  Event.push type target (toUInt16 env) q

/-- The reachable states of the process-wide event queue: the initial
empty queue, and anything obtained from a reachable state by an
enqueue (in particular any `push`) or a dequeue. -/
inductive QueueReachable : Queue → Prop where
  | init : QueueReachable Event.queue
  | enq (q : Queue) (e : Event) (h : QueueReachable q) :
      QueueReachable (q.enqueue e).2
  | deq (q : Queue) (h : QueueReachable q) :
      QueueReachable (q.dequeue).2

/-- Round-trip of a byte through the `int8_t` constructor parameter
and the `uint8_t` field: the two modular conversions compose to the
identity on `0..255`. -/
theorem toUInt8_toInt8_byte (t : Nat) (ht : t < 256) :
    toUInt8 (toInt8 (t : Int)) = t := by
  unfold toUInt8 toInt8
  split <;> omega

/-- Enqueue and dequeue preserve the capacity field and keep the
buffer length at most the capacity when it was before. -/
theorem queue_step_bound (q : Queue) (e : Event)
    (hcap : q.cap = Event.QUEUE_MAX)
    (hlen : q.buf.length ≤ Event.QUEUE_MAX) :
    ((q.enqueue e).2.cap = Event.QUEUE_MAX ∧
      (q.enqueue e).2.buf.length ≤ Event.QUEUE_MAX) ∧
    ((q.dequeue).2.cap = Event.QUEUE_MAX ∧
      (q.dequeue).2.buf.length ≤ Event.QUEUE_MAX) := by
  constructor
  · unfold Queue.enqueue
    split
    · simp_all
      omega
    · exact ⟨hcap, hlen⟩
  · unfold Queue.dequeue
    cases hb : q.buf with
    | nil => exact ⟨hcap, hlen⟩
    | cons x xs =>
      simp only
      refine ⟨hcap, ?_⟩
      have := hlen
      rw [hb] at this
      simp at this ⊢
      omega

/-- Every reachable queue state has capacity `QUEUE_MAX` and at most
`QUEUE_MAX` buffered events. -/
theorem queueReachable_invariant (q : Queue) (h : QueueReachable q) :
    q.cap = Event.QUEUE_MAX ∧ q.buf.length ≤ Event.QUEUE_MAX := by
  induction h with
  | init => exact ⟨rfl, by simp [Event.queue]⟩
  | enq q e h ih => exact (queue_step_bound q e ih.1 ih.2).1
  | deq q h ih => exact (queue_step_bound q Event.defaultEvent ih.1 ih.2).2

/-- Claim C1: for every Event whose target is non-null, `dispatch()`
invokes the target's `on_event` exactly once with exactly the event's
(type, value) pair; for every Event whose target is null, `dispatch()`
has no observable effect (no call is made and the event is unchanged). -/
theorem dispatch_correct (e : Event) :
    (e.m_target ≠ 0 →
      (e.dispatch).1 = [⟨e.m_target, e.m_type, e.m_value⟩]) ∧
    (e.m_target = 0 → (e.dispatch).1 = []) ∧
    (e.dispatch).2 = e := by
  unfold Event.dispatch
  refine ⟨fun h => ?_, fun h => ?_, rfl⟩
  · simp [h]
  · simp [h]

/-- Claim C1 witness: dispatch evaluated at concrete events with a
non-null and with a null target. -/
theorem dispatch_correct_witness :
    (Event.make 7 5 42).dispatch.1 = [⟨5, 7, 42⟩] ∧
    (Event.make 7 0 42).dispatch.1 = [] := by
  exact ⟨(dispatch_correct (Event.make 7 5 42)).1 (by decide),
         (dispatch_correct (Event.make 7 0 42)).2.1 (by decide)⟩

/-- Claim C4: for every Event constructed with a type byte `t`, target
`h` and 16-bit value `v`, the accessors `get_type`, `get_target` and
`get_value` return exactly `t`, `h` and `v`, and are pure: each leaves
the event unchanged. -/
theorem accessors_exact (t h v : Nat) (ht : t < 256) (hv : v < 65536) :
    ((Event.make (t : Int) h v).get_type).1 = (t : Int) ∧
    ((Event.make (t : Int) h v).get_target).1 = h ∧
    ((Event.make (t : Int) h v).get_value).1 = v ∧
    ((Event.make (t : Int) h v).get_type).2 = Event.make (t : Int) h v ∧
    ((Event.make (t : Int) h v).get_target).2 = Event.make (t : Int) h v ∧
    ((Event.make (t : Int) h v).get_value).2 = Event.make (t : Int) h v := by
  have hm : (Event.make (t : Int) h v).m_type = t := by
    simp only [Event.make]
    exact toUInt8_toInt8_byte t ht
  have hval : (Event.make (t : Int) h v).m_value = v := by
    simp only [Event.make, toUInt16]
    omega
  refine ⟨?_, rfl, ?_, rfl, rfl, rfl⟩
  · simp only [Event.get_type, hm]
  · simp only [Event.get_value, hval]

/-- Claim C4 witness: the accessors evaluated at a concrete event. -/
theorem accessors_exact_witness :
    ((Event.make 200 5 1000).get_type).1 = 200 ∧
    ((Event.make 200 5 1000).get_target).1 = 5 ∧
    ((Event.make 200 5 1000).get_value).1 = 1000 := by
  have h := accessors_exact 200 5 1000 (by decide) (by decide)
  exact ⟨h.1, h.2.1, h.2.2.1⟩

/-- Claim C2: `push(type, target, value)` constructs an Event with
exactly the given type byte, target and 16-bit value, attempts to
enqueue it on the process-wide queue, returns true iff the enqueue
succeeded, and has no other observable effect (on failure the queue is
unchanged; on success only the new event is appended). -/
theorem push_spec (t h v : Nat) (q : Queue) (ht : t < 256)
    (hv : v < 65536) :
    (Event.pushedEvent t h v).m_type = t ∧
    (Event.pushedEvent t h v).m_target = h ∧
    (Event.pushedEvent t h v).m_value = v ∧
    Event.push t h v q = q.enqueue (Event.pushedEvent t h v) ∧
    ((Event.push t h v q).1 = true ↔ q.buf.length < q.cap) ∧
    ((Event.push t h v q).1 = true →
      (Event.push t h v q).2.buf = q.buf ++ [Event.pushedEvent t h v]) ∧
    ((Event.push t h v q).1 = false → (Event.push t h v q).2 = q) := by
  have htm : t % 256 = t := Nat.mod_eq_of_lt ht
  refine ⟨?_, rfl, ?_, rfl, ?_, ?_, ?_⟩
  · simp only [Event.pushedEvent, Event.make]
    rw [toUInt8_toInt8_byte (t % 256) (Nat.mod_lt _ (by omega)), htm]
  · simp only [Event.pushedEvent, Event.make, toUInt16]
    omega
  · unfold Event.push Queue.enqueue
    split
    next hlt => simpa
    next hge => simp only [Bool.false_eq_true, false_iff]; omega
  · unfold Event.push Queue.enqueue
    split
    · intro _
      rfl
    · intro hc
      simp at hc
  · unfold Event.push Queue.enqueue
    split
    · intro hc
      simp at hc
    · intro _
      rfl

/-- Claim C2 witness: a push onto the empty process-wide queue,
evaluated concretely. -/
theorem push_spec_witness :
    (Event.pushedEvent 4 9 12).m_type = 4 ∧
    ((Event.push 4 9 12 Event.queue).1 = true ↔
      Event.queue.buf.length < Event.queue.cap) := by
  have h := push_spec 4 9 12 Event.queue (by decide) (by decide)
  exact ⟨h.1, h.2.2.2.2.1⟩

/-- Claim C3: the process-wide event queue has statically fixed
capacity `QUEUE_MAX = 16`, and in every reachable state the number of
buffered events is at most this capacity. -/
theorem queue_capacity_bound :
    Event.QUEUE_MAX = 16 ∧
    ∀ q, QueueReachable q → q.buf.length ≤ Event.QUEUE_MAX :=
  ⟨rfl, fun q h => (queueReachable_invariant q h).2⟩

/-- Claim C3 witness: the invariant applied to the initial
process-wide queue. -/
theorem queue_capacity_bound_witness :
    Event.queue.buf.length ≤ Event.QUEUE_MAX :=
  queue_capacity_bound.2 Event.queue QueueReachable.init

/-- Claim C5: the environment-pointer overload `push(type, target, env)`
equals the scalar overload applied to `env` narrowed modulo `2^16`:
same return value and same effect on the queue. -/
theorem pushEnv_eq_push_narrowed (t h env : Nat) (q : Queue) :
    Event.pushEnv t h env q = Event.push t h (env % 65536) q :=
  rfl

/-- Claim C6: `get_env()` is pure and returns exactly the 16-bit value
field reinterpreted as a pointer: it equals `get_value()` viewed as a
pointer, and no check is performed (the function is total and leaves
the event unchanged). -/
theorem get_env_eq_get_value (e : Event) :
    (e.get_env).1 = (e.get_value).1 ∧ (e.get_env).2 = e :=
  ⟨rfl, rfl⟩

/-- Claim C7: Event construction is pure total value construction, and
the default-constructed Event has the null type `0`, a null (absent)
target, and value `0`. -/
theorem default_event_fields :
    Event.defaultEvent.m_type = Event.NULL_TYPE ∧
    Event.defaultEvent.m_target = 0 ∧
    Event.defaultEvent.m_value = 0 := by
  refine ⟨?_, rfl, rfl⟩
  simp [Event.defaultEvent, Event.make, Event.NULL_TYPE, toUInt8, toInt8]

/-- Claim C8: an Event is immutable once constructed: every public
operation (`get_type`, `get_target`, `get_value`, `get_env`,
`dispatch`) returns the receiver with all fields unchanged. -/
theorem event_immutable (e : Event) :
    (e.get_type).2 = e ∧ (e.get_target).2 = e ∧ (e.get_value).2 = e ∧
    (e.get_env).2 = e ∧ (e.dispatch).2 = e :=
  ⟨rfl, rfl, rfl, rfl, rfl⟩

/-- Claim C9: the event type codes partition as specified: the null
type is `0`, every framework-reserved type from the pin edge types
through `SERVICE_RESPONSE_TYPE` lies strictly between `0` and `64`,
the user-defined range starts at `USER_TYPE = 64`, and the generic
error signal `ERROR_TYPE` is `255`. -/
theorem type_codes_partition :
    Event.NULL_TYPE = 0 ∧
    (Event.frameworkTypes.all fun t => decide (0 < t ∧ t < 64)) = true ∧
    Event.USER_TYPE = 64 ∧
    Event.ERROR_TYPE = 255 := by
  decide

/-- Claim C10: for every type byte `t` in `0..255` (including
`ERROR_TYPE = 255`, which does not fit in `int8_t`), an Event created
via `push(t, target, value)` or via the constructor `Event(t, ...)`
has `get_type()` equal to `t`: the signed/unsigned narrowing through
the `int8_t` constructor parameter round-trips modulo `2^8` and loses
no information. -/
theorem type_byte_roundtrip (t h v : Nat) (ht : t < 256) :
    ((Event.pushedEvent t h v).get_type).1 = (t : Int) ∧
    ((Event.make (t : Int) h v).get_type).1 = (t : Int) ∧
    ∀ q, Event.push t h v q = q.enqueue (Event.pushedEvent t h v) := by
  refine ⟨?_, ?_, fun q => rfl⟩
  · simp only [Event.pushedEvent, Event.make, Event.get_type]
    rw [toUInt8_toInt8_byte (t % 256) (Nat.mod_lt _ (by omega)),
        Nat.mod_eq_of_lt ht]
  · simp only [Event.make, Event.get_type]
    rw [toUInt8_toInt8_byte t ht]

/-- Claim C10 witness: the round-trip at `t = ERROR_TYPE = 255`, the
byte that does not fit in `int8_t`. -/
theorem type_byte_roundtrip_witness :
    ((Event.pushedEvent 255 3 7).get_type).1 = (255 : Int) ∧
    ((Event.make (255 : Int) 3 7).get_type).1 = (255 : Int) := by
  have h := type_byte_roundtrip 255 3 7 (by decide)
  exact ⟨h.1, h.2.1⟩

end Cosa
